import Mathlib

/-!
Verification development for the iceoryx2 event messaging core (C++ binding
layer plus the event service subsystem it exposes).

The pure enum-translation functions are embedded directly from
`iceoryx2-ffi/cxx/include/iox2/enum_translation.hpp`.  The Rust event core
(service registry, builder state machine, notifier/listener ports) is not part
of the C++ sources; it is modelled from the specification, and the test suite
(`service_event_tests.cpp`) pins the concrete behaviours.
-/

/-- The C enum `iox2_event_open_or_create_error_e` as it appears in the
`switch` statements of `enum_translation.hpp` (13 open variants prefixed `O_`,
7 create variants prefixed `C_`). -/
inductive Ciox2EventOpenOrCreateError where
  | O_DOES_NOT_EXIST
  | O_INSUFFICIENT_PERMISSIONS
  | O_SERVICE_IN_CORRUPTED_STATE
  | O_INCOMPATIBLE_MESSAGING_PATTERN
  | O_INCOMPATIBLE_ATTRIBUTES
  | O_INTERNAL_FAILURE
  | O_HANGS_IN_CREATION
  | O_DOES_NOT_SUPPORT_REQUESTED_AMOUNT_OF_NOTIFIERS
  | O_DOES_NOT_SUPPORT_REQUESTED_AMOUNT_OF_LISTENERS
  | O_DOES_NOT_SUPPORT_REQUESTED_MAX_EVENT_ID
  | O_DOES_NOT_SUPPORT_REQUESTED_AMOUNT_OF_NODES
  | O_EXCEEDS_MAX_NUMBER_OF_NODES
  | O_IS_MARKED_FOR_DESTRUCTION
  | C_SERVICE_IN_CORRUPTED_STATE
  | C_INTERNAL_FAILURE
  | C_IS_BEING_CREATED_BY_ANOTHER_INSTANCE
  | C_ALREADY_EXISTS
  | C_HANGS_IN_CREATION
  | C_INSUFFICIENT_PERMISSIONS
  | C_OLD_CONNECTION_STILL_ACTIVE
  deriving DecidableEq, Repr

/-- The C++ enum `iox2::EventCreateError`
(seven variants, per the total C++-to-C switch at
`enum_translation.hpp:489-510`). -/
inductive EventCreateError where
  | ServiceInCorruptedState
  | InternalFailure
  | IsBeingCreatedByAnotherInstance
  | AlreadyExists
  | HangsInCreation
  | InsufficientPermissions
  | OldConnectionsStillActive
  deriving DecidableEq, Repr

/-- Embedding of `from<int, iox2::EventCreateError>`
(`enum_translation.hpp:468-487`).  The C++ function casts the `int` to the C
enum and switches over it; the `default` branch executes `IOX_UNREACHABLE()`,
modelled here as `none`. -/
def fromIntEventCreateError (value : Ciox2EventOpenOrCreateError) :
    Option EventCreateError :=
  match value with
  | .C_SERVICE_IN_CORRUPTED_STATE => some .ServiceInCorruptedState
  | .C_INTERNAL_FAILURE => some .InternalFailure
  | .C_IS_BEING_CREATED_BY_ANOTHER_INSTANCE => some .IsBeingCreatedByAnotherInstance
  | .C_ALREADY_EXISTS => some .AlreadyExists
  | .C_HANGS_IN_CREATION => some .HangsInCreation
  | .C_INSUFFICIENT_PERMISSIONS => some .InsufficientPermissions
  | _ => none

/-- Embedding of `from<iox2::EventCreateError, iox2_event_open_or_create_error_e>`
(`enum_translation.hpp:489-510`): total on the C++ enum, with
`OldConnectionsStillActive` mapped to `C_OLD_CONNECTION_STILL_ACTIVE`. -/
def eventCreateErrorToC (value : EventCreateError) : Ciox2EventOpenOrCreateError :=
  match value with
  | .InsufficientPermissions => .C_INSUFFICIENT_PERMISSIONS
  | .HangsInCreation => .C_HANGS_IN_CREATION
  | .AlreadyExists => .C_ALREADY_EXISTS
  | .IsBeingCreatedByAnotherInstance => .C_IS_BEING_CREATED_BY_ANOTHER_INSTANCE
  | .InternalFailure => .C_INTERNAL_FAILURE
  | .ServiceInCorruptedState => .C_SERVICE_IN_CORRUPTED_STATE
  | .OldConnectionsStillActive => .C_OLD_CONNECTION_STILL_ACTIVE

/-- The C++ enum `iox2::EventOpenError` (the 13 variants enumerated by the
total C++-to-C switch at `enum_translation.hpp:428-461`). -/
inductive EventOpenError where
  | DoesNotExist
  | InsufficientPermissions
  | ServiceInCorruptedState
  | IncompatibleMessagingPattern
  | IncompatibleAttributes
  | InternalFailure
  | HangsInCreation
  | DoesNotSupportRequestedAmountOfNotifiers
  | DoesNotSupportRequestedAmountOfListeners
  | DoesNotSupportRequestedMaxEventId
  | DoesNotSupportRequestedAmountOfNodes
  | ExceedsMaxNumberOfNodes
  | IsMarkedForDestruction
  deriving DecidableEq, Repr

/-- The C++ enum `iox2::EventOpenOrCreateError`: the open errors and create
errors prefixed to disambiguate origin (per the translation at
`enum_translation.hpp:288-335`). -/
inductive EventOpenOrCreateError where
  | OpenDoesNotExist
  | OpenInsufficientPermissions
  | OpenServiceInCorruptedState
  | OpenIncompatibleMessagingPattern
  | OpenIncompatibleAttributes
  | OpenInternalFailure
  | OpenHangsInCreation
  | OpenDoesNotSupportRequestedAmountOfNotifiers
  | OpenDoesNotSupportRequestedAmountOfListeners
  | OpenDoesNotSupportRequestedMaxEventId
  | OpenDoesNotSupportRequestedAmountOfNodes
  | OpenExceedsMaxNumberOfNodes
  | OpenIsMarkedForDestruction
  | CreateServiceInCorruptedState
  | CreateInternalFailure
  | CreateIsBeingCreatedByAnotherInstance
  | CreateAlreadyExists
  | CreateHangsInCreation
  | CreateInsufficientPermissions
  | CreateOldConnectionsStillActive
  deriving DecidableEq, Repr

/-- Modelled from the spec: the C++ enum `iox2::NotifierNotifyError`
(`notifier_error.hpp` is not among the sources; §7 lists the notify errors
`EventIdOutOfBounds` and `MissedDeadline`, and the test
`notifier_is_informed_when_deadline_was_missed` uses
`NotifierNotifyError::MissedDeadline`). -/
inductive NotifierNotifyError where
  | EventIdOutOfBounds
  | MissedDeadline
  deriving DecidableEq, Repr

/-- Modelled from the spec: the C enum `iox2_notifier_notify_error_e`
(`iceoryx2.h` is not among the sources; it mirrors the notify-error taxonomy
of §7, one value per notify failure). -/
inductive Ciox2NotifierNotifyError where
  | EVENT_ID_OUT_OF_BOUNDS
  | MISSED_DEADLINE
  deriving DecidableEq, Repr

/-- Embedding of `from<int, iox2::NotifierNotifyError>`
(`enum_translation.hpp:850-859`).  The switch handles only
`EVENT_ID_OUT_OF_BOUNDS`; every other C value falls into `IOX_UNREACHABLE()`,
modelled as `none`. -/
def fromIntNotifierNotifyError (value : Ciox2NotifierNotifyError) :
    Option NotifierNotifyError :=
  match value with
  | .EVENT_ID_OUT_OF_BOUNDS => some .EventIdOutOfBounds
  | _ => none

/-- Modelled from the spec: the error code the Rust core reports through the C
layer for each notify failure (the core producing these codes is not among the
sources). -/
def notifyErrorCCode (e : NotifierNotifyError) : Ciox2NotifierNotifyError :=
  match e with
  | .EventIdOutOfBounds => .EVENT_ID_OUT_OF_BOUNDS
  | .MissedDeadline => .MISSED_DEADLINE

/-- The C++ enum `iox2::ListenerCreateError` (the two variants enumerated by
the translation at `enum_translation.hpp:818-842`). -/
inductive ListenerCreateError where
  | ExceedsMaxSupportedListeners
  | ResourceCreationFailed
  deriving DecidableEq, Repr

/-- Modelled from the spec: the C++ enum `iox2::NotifierCreateError`
(§7: `ExceedsMaxSupportedNotifiers` on create). -/
inductive NotifierCreateError where
  | ExceedsMaxSupportedNotifiers
  deriving DecidableEq, Repr

/-- Modelled from the spec: `StaticConfigEvent` (§3), the immutable event
quality-of-service descriptor written at create; the Rust struct behind
`PortFactoryEvent::static_config` is not among the sources.  The optional
deadline is a duration in nanoseconds. -/
structure StaticConfigEvent where
  max_notifiers : Nat
  max_listeners : Nat
  max_nodes : Nat
  event_id_max_value : Nat
  deadline : Option Nat
  notifier_created_event : Option Nat
  notifier_dropped_event : Option Nat
  notifier_dead_event : Option Nat
  deriving DecidableEq, Repr

/-- Modelled from the spec: an `AttributeVerifier` holds required (key,value)
pairs and required keys (§4.3); the Rust type is not among the sources. -/
structure AttributeVerifier where
  requiredValues : List (String × String)
  requiredKeys : List String
  deriving DecidableEq, Repr

/-- Modelled from the spec: attribute verification (§4.3) — each required
(key,value) pair must appear in the descriptor attribute set and each required
key must appear at least once. -/
def verifyAttributes (ver : AttributeVerifier) (attrs : List (String × String)) : Bool :=
  ver.requiredValues.all (fun p => attrs.contains p) &&
  ver.requiredKeys.all (fun k => attrs.any (fun p => p.1 == k))

/-- Modelled from the spec: one listener slot of the dynamic state (§3, §4.5).
The pending set is the bitmap over event ids, kept as a sorted
duplicate-free list; a detached slot no longer receives deliveries. -/
structure ListenerSlot where
  attached : Bool
  pending : List Nat
  deriving DecidableEq, Repr

/-- Modelled from the spec: the per-service state of the event subsystem — the
static descriptor, the attribute set, and the dynamic roster (live factory
handles, live notifiers, listener slots); the Rust dynamic state is not among
the sources. -/
structure EventService where
  static : StaticConfigEvent
  attrs : List (String × String)
  factories : Nat
  notifiers : Nat
  listeners : List ListenerSlot
  deriving DecidableEq, Repr

/-- Modelled from the spec: the state a notifier port carries — its
last-notify timestamp, initialised at creation (§3). -/
structure NotifierState where
  lastNotify : Nat
  deriving DecidableEq, Repr

/-- Modelled from the spec: idempotent insertion into the sorted pending set —
notifications coalesce per id (§4.5). -/
def insertId (id : Nat) : List Nat → List Nat
  | [] => [id]
  | x :: xs =>
      if id < x then id :: x :: xs
      else if id = x then x :: xs
      else x :: insertId id xs

/-- Modelled from the spec: delivery of an event id to one listener slot;
detached slots are skipped. -/
def deliverTo (id : Nat) (slot : ListenerSlot) : ListenerSlot :=
  if slot.attached then { slot with pending := insertId id slot.pending } else slot

/-- Modelled from the spec: a notifier writes the id into the shared event
channel, reaching every attached listener (§4.4). -/
def deliverAll (id : Nat) (svc : EventService) : EventService :=
  { svc with listeners := svc.listeners.map (deliverTo id) }

/-- Number of attached listener slots. -/
def attachedCount (ls : List ListenerSlot) : Nat :=
  ls.countP (fun slot => slot.attached)

/-- Modelled from the spec: the local holders keeping a service alive — the
factory handles plus the live notifier and listener ports (§9, §4.2). -/
def holders (svc : EventService) : Nat :=
  svc.factories + svc.notifiers + attachedCount svc.listeners

/-- Modelled from the spec: when the count of holders reaches zero the
descriptor and dynamic state are removed (§4.2 `destroy_if_orphaned`, §9). -/
def normService (s : Option EventService) : Option EventService :=
  match s with
  | some svc => if holders svc = 0 then none else some svc
  | none => none

/-- Modelled from the spec: `Service::does_exist` probes for a Ready static
descriptor and does not attach (§4.2, §4.7); `service.cpp:22-38` merely
forwards to the absent C implementation. -/
def does_exist (s : Option EventService) : Bool := s.isSome

/-- Modelled from the spec: the create path of the builder state machine
(§4.3) — if the descriptor is Ready the call fails with `AlreadyExists` and
the existing service is untouched; otherwise the descriptor is written and the
caller receives the initial factory handle. -/
def createService (cfg : StaticConfigEvent) (attrs : List (String × String))
    (s : Option EventService) : Option EventService × Except EventCreateError Unit :=
  match s with
  | some svc => (some svc, .error .AlreadyExists)
  | none =>
      (some { static := cfg, attrs := attrs, factories := 1, notifiers := 0, listeners := [] },
       .ok ())

/-- Modelled from the spec: the open path of the builder state machine (§4.3)
— absent descriptor yields `DoesNotExist`; a recorded maximum below the
requested minimum yields the specific `DoesNotSupportRequested…` error; a
rejecting attribute verifier yields `IncompatibleAttributes`; otherwise the
caller attaches as one more factory holder. -/
def openService (minNotifiers minListeners : Nat) (ver : AttributeVerifier)
    (s : Option EventService) : Option EventService × Except EventOpenError Unit :=
  match s with
  | none => (none, .error .DoesNotExist)
  | some svc =>
      if svc.static.max_notifiers < minNotifiers then
        (some svc, .error .DoesNotSupportRequestedAmountOfNotifiers)
      else if svc.static.max_listeners < minListeners then
        (some svc, .error .DoesNotSupportRequestedAmountOfListeners)
      else if verifyAttributes ver svc.attrs then
        (some { svc with factories := svc.factories + 1 }, .ok ())
      else
        (some svc, .error .IncompatibleAttributes)

/-- Open errors as reported from `open_or_create`, prefixed with their origin
(§7). -/
def openErrorPrefixed (e : EventOpenError) : EventOpenOrCreateError :=
  match e with
  | .DoesNotExist => .OpenDoesNotExist
  | .InsufficientPermissions => .OpenInsufficientPermissions
  | .ServiceInCorruptedState => .OpenServiceInCorruptedState
  | .IncompatibleMessagingPattern => .OpenIncompatibleMessagingPattern
  | .IncompatibleAttributes => .OpenIncompatibleAttributes
  | .InternalFailure => .OpenInternalFailure
  | .HangsInCreation => .OpenHangsInCreation
  | .DoesNotSupportRequestedAmountOfNotifiers => .OpenDoesNotSupportRequestedAmountOfNotifiers
  | .DoesNotSupportRequestedAmountOfListeners => .OpenDoesNotSupportRequestedAmountOfListeners
  | .DoesNotSupportRequestedMaxEventId => .OpenDoesNotSupportRequestedMaxEventId
  | .DoesNotSupportRequestedAmountOfNodes => .OpenDoesNotSupportRequestedAmountOfNodes
  | .ExceedsMaxNumberOfNodes => .OpenExceedsMaxNumberOfNodes
  | .IsMarkedForDestruction => .OpenIsMarkedForDestruction

/-- Create errors as reported from `open_or_create`, prefixed with their
origin (§7). -/
def createErrorPrefixed (e : EventCreateError) : EventOpenOrCreateError :=
  match e with
  | .ServiceInCorruptedState => .CreateServiceInCorruptedState
  | .InternalFailure => .CreateInternalFailure
  | .IsBeingCreatedByAnotherInstance => .CreateIsBeingCreatedByAnotherInstance
  | .AlreadyExists => .CreateAlreadyExists
  | .HangsInCreation => .CreateHangsInCreation
  | .InsufficientPermissions => .CreateInsufficientPermissions
  | .OldConnectionsStillActive => .CreateOldConnectionsStillActive

/-- Modelled from the spec: `open_or_create` (§4.3) — try open; on
`DoesNotExist` attempt create; every error keeps its origin prefix. -/
def openOrCreateService (cfg : StaticConfigEvent) (attrs : List (String × String))
    (minNotifiers minListeners : Nat) (ver : AttributeVerifier)
    (s : Option EventService) : Option EventService × Except EventOpenOrCreateError Unit :=
  match openService minNotifiers minListeners ver s with
  | (s1, .ok ()) => (s1, .ok ())
  | (_, .error .DoesNotExist) =>
      match createService cfg attrs s with
      | (s2, .ok ()) => (s2, .ok ())
      | (s2, .error e) => (s2, .error (createErrorPrefixed e))
  | (s1, .error e) => (s1, .error (openErrorPrefixed e))

/-- Modelled from the spec: notifier creation (§4.4) — reserves a notifier
slot, failing with `ExceedsMaxSupportedNotifiers` when the roster is full; if
`notifier_created_event` is set, the new notifier emits that event id to all
current listeners as its first act.  The last-notify timestamp starts at the
creation instant `now`. -/
def createNotifier (now : Nat) (svc : EventService) :
    EventService × Except NotifierCreateError NotifierState :=
  if svc.notifiers < svc.static.max_notifiers then
    let svcA := { svc with notifiers := svc.notifiers + 1 }
    let svcB :=
      match svc.static.notifier_created_event with
      | some e => deliverAll e svcA
      | none => svcA
    (svcB, .ok { lastNotify := now })
  else
    (svc, .error .ExceedsMaxSupportedNotifiers)

/-- Modelled from the spec: notifier drop (§4.4) — if
`notifier_dropped_event` is set, it is emitted before the slot is released. -/
def dropNotifier (svc : EventService) : EventService :=
  let svcA :=
    match svc.static.notifier_dropped_event with
    | some e => deliverAll e svc
    | none => svc
  { svcA with notifiers := svcA.notifiers - 1 }

/-- Modelled from the spec: listener creation (§4.5, §7) — appends an attached
slot with an empty pending set, failing with `ExceedsMaxSupportedListeners`
when the roster is full; the returned index is the listener handle. -/
def createListener (svc : EventService) :
    EventService × Except ListenerCreateError Nat :=
  if attachedCount svc.listeners < svc.static.max_listeners then
    ({ svc with listeners := svc.listeners ++ [{ attached := true, pending := [] }] },
     .ok svc.listeners.length)
  else
    (svc, .error .ExceedsMaxSupportedListeners)

/-- Detach the listener slot at index `i` (slot indices are not reused). -/
def detachListener (i : Nat) (ls : List ListenerSlot) : List ListenerSlot :=
  match ls, i with
  | [], _ => []
  | _ :: rest, 0 => { attached := false, pending := [] } :: rest
  | slot :: rest, j + 1 => slot :: detachListener j rest

/-- Modelled from the spec: `notify` / `notify_with_custom_event_id` (§4.4) —
validates `id ≤ event_id_max_value`, else `EventIdOutOfBounds` and nothing is
delivered; otherwise the id is delivered to every attached listener and the
last-notify timestamp becomes `now` regardless; when a configured deadline `d`
was exceeded the call reports `MissedDeadline` while still having
delivered. -/
def notify (now id : Nat) (n : NotifierState) (svc : EventService) :
    Except NotifierNotifyError Unit × NotifierState × EventService :=
  if svc.static.event_id_max_value < id then
    (.error .EventIdOutOfBounds, n, svc)
  else
    let delivered := deliverAll id svc
    let updated : NotifierState := { lastNotify := now }
    match svc.static.deadline with
    | some d =>
        if d < now - n.lastNotify then
          (.error .MissedDeadline, updated, delivered)
        else
          (.ok (), updated, delivered)
    | none => (.ok (), updated, delivered)

/-- Modelled from the spec: the C++ `Notifier::notify` error surface — the
core reports the failure as a C error code which the binding converts through
`from<int, iox2::NotifierNotifyError>`; `none` is the unreachable-assertion
branch of that translation. -/
def cxxNotifyErrorSurface (e : NotifierNotifyError) : Option NotifierNotifyError :=
  fromIntNotifierNotifyError (notifyErrorCCode e)

/-- Modelled from the spec: `try_wait_one` (§4.5) — non-blocking, returns the
lowest pending id of the listener slot `i` (or none) and removes it. -/
def tryWaitOne (i : Nat) (svc : EventService) : Option Nat × EventService :=
  match svc.listeners[i]? with
  | some slot =>
      match slot.pending with
      | [] => (none, svc)
      | id :: rest =>
          (some id,
           { svc with listeners := svc.listeners.set i { slot with pending := rest } })
  | none => (none, svc)

/-- Modelled from the spec: `try_wait_all` (§4.5) — drains the entire pending
set of listener slot `i` in one non-blocking pass; the returned list holds the
ids `fn` is invoked with, lowest first, each distinct pending id exactly
once. -/
def tryWaitAll (i : Nat) (svc : EventService) : List Nat × EventService :=
  match svc.listeners[i]? with
  | some slot =>
      (slot.pending,
       { svc with listeners := svc.listeners.set i { slot with pending := [] } })
  | none => ([], svc)

/-- Drop a factory handle; the service is removed when no holder remains. -/
def dropFactory (s : Option EventService) : Option EventService :=
  normService (s.map fun svc => { svc with factories := svc.factories - 1 })

/-- Drop a notifier port (emitting `notifier_dropped_event` if set); the
service is removed when no holder remains. -/
def dropNotifierPort (s : Option EventService) : Option EventService :=
  normService (s.map dropNotifier)

/-- Drop the listener port at slot `i`; the service is removed when no holder
remains. -/
def dropListenerPort (i : Nat) (s : Option EventService) : Option EventService :=
  normService (s.map fun svc => { svc with listeners := detachListener i svc.listeners })

/-- Modelled from the spec: little-endian byte encoding of an unsigned
integer in `k` bytes (§6: all unsigned integers little-endian); the Rust
descriptor serializer is not among the sources. -/
def encodeLE : Nat → Nat → List Nat
  | 0, _ => []
  | k + 1, n => n % 256 :: encodeLE k (n / 256)

/-- Little-endian byte decoding. -/
def decodeLE : List Nat → Nat
  | [] => 0
  | b :: bs => b + 256 * decodeLE bs

/-- One u64 field, 8 bytes little-endian (§6). -/
def encodeU64 (n : Nat) : List Nat := encodeLE 8 n

/-- Read one u64 field from the front of a byte stream. -/
def readU64 (l : List Nat) : Nat × List Nat := (decodeLE (l.take 8), l.drop 8)

/-- Modelled from the spec: an optional u64 field — a presence tag byte
followed by the 8 payload bytes. -/
def encodeOptU64 (o : Option Nat) : List Nat :=
  match o with
  | none => 0 :: encodeU64 0
  | some v => 1 :: encodeU64 v

/-- Read one optional u64 field; an unknown tag byte is a decode failure. -/
def readOptU64 (l : List Nat) : Option (Option Nat × List Nat) :=
  match l with
  | [] => none
  | t :: rest =>
      if t = 0 then some (none, rest.drop 8)
      else if t = 1 then some (some (decodeLE (rest.take 8)), rest.drop 8)
      else none

/-- Modelled from the spec: the serialized form of `StaticConfigEvent` inside
the on-disk descriptor (§6: binary encoding, unsigned integers little-endian),
field by field in declaration order. -/
def encodeStaticConfigEvent (c : StaticConfigEvent) : List Nat :=
  encodeU64 c.max_notifiers ++ (encodeU64 c.max_listeners ++ (encodeU64 c.max_nodes ++
    (encodeU64 c.event_id_max_value ++ (encodeOptU64 c.deadline ++
      (encodeOptU64 c.notifier_created_event ++ (encodeOptU64 c.notifier_dropped_event ++
        encodeOptU64 c.notifier_dead_event))))))

/-- Modelled from the spec: deserialization of `StaticConfigEvent` from the
descriptor bytes. -/
def decodeStaticConfigEvent (l : List Nat) : Option StaticConfigEvent :=
  let p1 := readU64 l
  let p2 := readU64 p1.2
  let p3 := readU64 p2.2
  let p4 := readU64 p3.2
  match readOptU64 p4.2 with
  | none => none
  | some q1 =>
      match readOptU64 q1.2 with
      | none => none
      | some q2 =>
          match readOptU64 q2.2 with
          | none => none
          | some q3 =>
              match readOptU64 q3.2 with
              | none => none
              | some q4 =>
                  some { max_notifiers := p1.1, max_listeners := p2.1, max_nodes := p3.1,
                         event_id_max_value := p4.1, deadline := q1.1,
                         notifier_created_event := q2.1, notifier_dropped_event := q3.1,
                         notifier_dead_event := q4.1 }

/-- The u64 value bound, `256 ^ 8 = 2 ^ 64`. -/
def U64Bound : Nat := 256 ^ 8

/-- All fields of the static config fit in a u64. -/
def wfStaticConfigEvent (c : StaticConfigEvent) : Prop :=
  c.max_notifiers < U64Bound ∧ c.max_listeners < U64Bound ∧ c.max_nodes < U64Bound ∧
  c.event_id_max_value < U64Bound ∧ c.deadline.getD 0 < U64Bound ∧
  c.notifier_created_event.getD 0 < U64Bound ∧ c.notifier_dropped_event.getD 0 < U64Bound ∧
  c.notifier_dead_event.getD 0 < U64Bound

/-- A worked static config: no deadline, no lifecycle events, generous
limits. -/
def cfgW : StaticConfigEvent :=
  { max_notifiers := 10, max_listeners := 10, max_nodes := 10, event_id_max_value := 100,
    deadline := none, notifier_created_event := none, notifier_dropped_event := none,
    notifier_dead_event := none }

/-- The limits of the `open_fails_with_incompatible_max_…` tests:
`max_notifiers = 5`, `max_listeners = 7`. -/
def cfg57 : StaticConfigEvent :=
  { cfgW with max_notifiers := 5, max_listeners := 7 }

/-- A service whose descriptor records `max_notifiers = 5`,
`max_listeners = 7`. -/
def svc57 : EventService :=
  { static := cfg57, attrs := [], factories := 1, notifiers := 0, listeners := [] }

/-- The config of the `notifier_emits_create_and_drop_events` test:
`notifier_created_event = 21`, `notifier_dropped_event = 31`. -/
def cfg2131 : StaticConfigEvent :=
  { cfgW with notifier_created_event := some 21, notifier_dropped_event := some 31 }

/-- The config of the `service_settings_are_applied` test:
`max_notifiers = 5`, `max_listeners = 7`, lifecycle event ids 12/13/14. -/
def cfg5712 : StaticConfigEvent :=
  { max_notifiers := 5, max_listeners := 7, max_nodes := 2, event_id_max_value := 32,
    deadline := none, notifier_created_event := some 12, notifier_dropped_event := some 13,
    notifier_dead_event := some 14 }

/-- A service with a 1-nanosecond deadline, one attached listener and a live
notifier, as in `notifier_is_informed_when_deadline_was_missed`. -/
def svcDeadline1 : EventService :=
  { static := { cfgW with deadline := some 1 }, attrs := [], factories := 1, notifiers := 1,
    listeners := [{ attached := true, pending := [] }] }

/-- A verifier with no requirements. -/
def verEmpty : AttributeVerifier := { requiredValues := [], requiredKeys := [] }

/-- A service held by one factory handle and one live notifier. -/
def svcFactoryAndNotifier : EventService :=
  { static := cfgW, attrs := [], factories := 1, notifiers := 1, listeners := [] }

/-- A service whose only remaining holder is a live notifier. -/
def svcOnlyNotifier : EventService :=
  { static := cfgW, attrs := [], factories := 0, notifiers := 1, listeners := [] }

/-- The fixture service of the wait tests: one factory, one notifier, one
attached listener with an empty pending set. -/
def svcFixture : EventService :=
  { static := cfgW, attrs := [], factories := 1, notifiers := 1,
    listeners := [{ attached := true, pending := [] }] }

/-- `svcFixture` after event id 3 was delivered. -/
def svcP3 : EventService :=
  { svcFixture with listeners := [{ attached := true, pending := [3] }] }

/-- `svcFixture` after event ids 3 and 5 were delivered. -/
def svcP35 : EventService :=
  { svcFixture with listeners := [{ attached := true, pending := [3, 5] }] }

/-- The service of the create/drop-event test right after its notifier was
created: the `notifier_created_event` id 21 is pending at the preexisting
listener. -/
def svcCreated21 : EventService :=
  { static := cfg2131, attrs := [], factories := 1, notifiers := 1,
    listeners := [{ attached := true, pending := [21] }] }

/-- A service created with the single attribute pair `(k1, v1)`. -/
def svcAttr : EventService :=
  { static := cfgW, attrs := [("k1", "v1")], factories := 1, notifiers := 0, listeners := [] }

/-- A notification fixture: one factory handle, one live notifier, one
attached listener whose pending set is `p`. -/
def listenerPendingService (cfg : StaticConfigEvent) (p : List Nat) : EventService :=
  { static := cfg, attrs := [], factories := 1, notifiers := 1,
    listeners := [{ attached := true, pending := p }] }

/-- A service holding one factory handle and one attached listener with an
empty pending set, before any notifier exists. -/
def preNotifierService (cfg : StaticConfigEvent) : EventService :=
  { static := cfg, attrs := [], factories := 1, notifiers := 0,
    listeners := [{ attached := true, pending := [] }] }

/-- C10: the C-to-C++ `EventCreateError` translation is one-sided for exactly
`OldConnectionsStillActive`: the six other variants survive the C++ → C → C++
round trip unchanged, while `OldConnectionsStillActive` is sent to
`C_OLD_CONNECTION_STILL_ACTIVE`, for which `from<int, iox2::EventCreateError>`
has no case and falls into the unreachable-assertion branch (`none`). -/
theorem event_create_error_round_trip (e : EventCreateError) :
    fromIntEventCreateError (eventCreateErrorToC e) =
      if e = EventCreateError.OldConnectionsStillActive then none else some e := by
  cases e <;> rfl

/-- A delivery never changes whether a slot is attached. -/
theorem deliverTo_attached (id : Nat) (slot : ListenerSlot) :
    (deliverTo id slot).attached = slot.attached := by
  unfold deliverTo; split <;> rfl

/-- Delivery preserves the number of attached listener slots. -/
theorem attachedCount_map_deliverTo (id : Nat) (ls : List ListenerSlot) :
    attachedCount (ls.map (deliverTo id)) = attachedCount ls := by
  induction ls with
  | nil => rfl
  | cons a l ih =>
      simp only [List.map_cons, attachedCount, List.countP_cons, deliverTo_attached] at *
      omega

/-- Detaching an attached slot lowers the attached count by one. -/
theorem attachedCount_detachListener :
    ∀ (ls : List ListenerSlot) (i : Nat),
      (ls[i]?).map (fun s => s.attached) = some true →
      attachedCount (detachListener i ls) + 1 = attachedCount ls := by
  intro ls
  induction ls with
  | nil => intro i h; simp at h
  | cons a l ih =>
      intro i h
      cases i with
      | zero =>
          simp only [List.getElem?_cons_zero, Option.map_some', Option.some.injEq] at h
          simp [detachListener, attachedCount, List.countP_cons, h]
      | succ j =>
          simp only [List.getElem?_cons_succ] at h
          have hj := ih j h
          simp only [detachListener, attachedCount, List.countP_cons] at *
          omega

/-- A service kept by `normService` exists exactly when more than one holder
was present before the drop that produced it. -/
theorem normService_isSome (svcm : EventService) (k : Nat)
    (hk : holders svcm = k - 1) :
    does_exist (normService (some svcm)) = decide (1 < k) := by
  simp only [normService, does_exist]
  by_cases h0 : holders svcm = 0
  · rw [if_pos h0]
    have hnk : ¬ 1 < k := by omega
    simp [hnk]
  · rw [if_neg h0]
    have hk1 : 1 < k := by omega
    simp [hk1]

/-- C2: `does_exist` is false before a successful create, true at every point
between the create and the drop of the last holder — a still-live notifier or
listener port counts as a holder even after the factory handle is dropped —
and false again after the last holder is dropped. -/
theorem does_exist_lifecycle (cfg : StaticConfigEvent) (attrs : List (String × String)) :
    does_exist none = false
    ∧ (createService cfg attrs none).2 = .ok ()
    ∧ does_exist (createService cfg attrs none).1 = true
    ∧ (∀ svc : EventService, does_exist (some svc) = true)
    ∧ (∀ svc : EventService, 0 < svc.factories →
        does_exist (dropFactory (some svc)) = decide (1 < holders svc))
    ∧ (∀ svc : EventService, 0 < svc.notifiers →
        does_exist (dropNotifierPort (some svc)) = decide (1 < holders svc))
    ∧ (∀ (svc : EventService) (i : Nat),
        (svc.listeners[i]?).map (fun s => s.attached) = some true →
        does_exist (dropListenerPort i (some svc)) = decide (1 < holders svc)) := by
  refine ⟨rfl, rfl, rfl, fun svc => rfl, ?_, ?_, ?_⟩
  · intro svc hf
    simp only [dropFactory, Option.map_some']
    refine normService_isSome _ (holders svc) ?_
    simp only [holders]
    omega
  · intro svc hn
    simp only [dropNotifierPort, Option.map_some']
    refine normService_isSome _ (holders svc) ?_
    cases hd : svc.static.notifier_dropped_event with
    | none =>
        simp only [dropNotifier, hd, holders]
        omega
    | some e =>
        simp only [dropNotifier, hd, holders, deliverAll, attachedCount_map_deliverTo]
        omega
  · intro svc i hi
    simp only [dropListenerPort, Option.map_some']
    refine normService_isSome _ (holders svc) ?_
    have hdet := attachedCount_detachListener svc.listeners i hi
    simp only [holders]
    omega

/-- Witness for C2: with one factory handle and one live notifier, dropping
the factory leaves the service existing; with only a notifier left, dropping
it removes the service. -/
theorem does_exist_lifecycle_witness :
    does_exist (dropFactory (some svcFactoryAndNotifier)) = true
    ∧ does_exist (dropNotifierPort (some svcOnlyNotifier)) = false := by
  constructor
  · have h := (does_exist_lifecycle cfgW []).2.2.2.2.1 svcFactoryAndNotifier (by decide)
    rw [h]; decide
  · have h := (does_exist_lifecycle cfgW []).2.2.2.2.2.1 svcOnlyNotifier (by decide)
    rw [h]; decide

/-- C5: a `create()` issued while the same service is Ready fails with
`AlreadyExists` and the existing service is left unchanged. -/
theorem create_already_exists (cfg : StaticConfigEvent)
    (attrs : List (String × String)) (svc : EventService) :
    createService cfg attrs (some svc) = (some svc, .error .AlreadyExists) := rfl

/-- C7: opening with a requested minimum above the recorded `max_notifiers`
yields `DoesNotSupportRequestedAmountOfNotifiers`; analogously a minimum above
`max_listeners` yields `DoesNotSupportRequestedAmountOfListeners`. -/
theorem open_unsupported_minimums (svc : EventService) (minN minL : Nat)
    (ver : AttributeVerifier) :
    (svc.static.max_notifiers < minN →
      openService minN minL ver (some svc)
        = (some svc, .error .DoesNotSupportRequestedAmountOfNotifiers))
    ∧ (minN ≤ svc.static.max_notifiers → svc.static.max_listeners < minL →
      openService minN minL ver (some svc)
        = (some svc, .error .DoesNotSupportRequestedAmountOfListeners)) := by
  constructor
  · intro h
    simp [openService, h]
  · intro h1 h2
    simp [openService, h2, Nat.not_lt.mpr h1]

/-- Witness for C7, with the limits of the incompatible-requirements tests:
`max_notifiers = 5` opened with minimum 6, `max_listeners = 7` opened with
minimum 8. -/
theorem open_unsupported_minimums_witness :
    openService 6 0 verEmpty (some svc57)
      = (some svc57, .error .DoesNotSupportRequestedAmountOfNotifiers)
    ∧ openService 0 8 verEmpty (some svc57)
      = (some svc57, .error .DoesNotSupportRequestedAmountOfListeners) :=
  ⟨(open_unsupported_minimums svc57 6 0 verEmpty).1 (by decide),
   (open_unsupported_minimums svc57 0 8 verEmpty).2 (by decide) (by decide)⟩

/-- C4: `notify_with_custom_event_id(id)` with `id` above the recorded
`event_id_max_value` fails with `EventIdOutOfBounds` and delivers nothing (the
notifier state and the service are untouched); for `id` within the bound the
check passes, so the call never reports `EventIdOutOfBounds`; the C error code
for this failure is the one case the C-to-C++ notify-error translation
handles. -/
theorem notify_event_id_bound (svc : EventService) (n : NotifierState)
    (now id : Nat) :
    (svc.static.event_id_max_value < id →
      notify now id n svc = (.error .EventIdOutOfBounds, n, svc))
    ∧ (id ≤ svc.static.event_id_max_value →
      (notify now id n svc).1 ≠ .error .EventIdOutOfBounds)
    ∧ fromIntNotifierNotifyError .EVENT_ID_OUT_OF_BOUNDS = some .EventIdOutOfBounds := by
  refine ⟨?_, ?_, rfl⟩
  · intro h
    simp [notify, h]
  · intro h
    unfold notify
    rw [if_neg (Nat.not_lt.mpr h)]
    cases hd : svc.static.deadline with
    | none => simp
    | some d =>
        dsimp only
        split <;> simp

/-- Witness for C4 on the fixture service (`event_id_max_value = 100`): id 101
is rejected without delivery, id 5 passes the bound check. -/
theorem notify_event_id_bound_witness :
    notify 0 101 { lastNotify := 0 } svcFixture
      = (.error .EventIdOutOfBounds, { lastNotify := 0 }, svcFixture)
    ∧ (notify 0 5 { lastNotify := 0 } svcFixture).1 ≠ .error .EventIdOutOfBounds :=
  ⟨(notify_event_id_bound svcFixture { lastNotify := 0 } 0 101).1 (by decide),
   (notify_event_id_bound svcFixture { lastNotify := 0 } 0 5).2.1 (by decide)⟩

/-- C1 (code bug): on a deadline-1ns service, a notify 10 time units after the
last one produces the `MissedDeadline` error at the core while still
delivering the event — the listener then observes it with `try_wait_one` —
and the timestamp is updated; but the C error code `MISSED_DEADLINE` has no
case in `from<int, iox2::NotifierNotifyError>` (`enum_translation.hpp:850-859`),
so the C++ binding falls into the unreachable-assertion branch instead of
returning `MissedDeadline` as the claim (and the repository's own test
`notifier_is_informed_when_deadline_was_missed`) expects. -/
theorem missed_deadline_translation_bug :
    notify 10 0 { lastNotify := 0 } svcDeadline1
      = (.error .MissedDeadline, { lastNotify := 10 },
         { svcDeadline1 with listeners := [{ attached := true, pending := [0] }] })
    ∧ (tryWaitOne 0 { svcDeadline1 with
         listeners := [{ attached := true, pending := [0] }] }).1 = some 0
    ∧ fromIntNotifierNotifyError (notifyErrorCCode .MissedDeadline) = none
    ∧ cxxNotifyErrorSurface .MissedDeadline = none := by
  refine ⟨?_, rfl, rfl, rfl⟩
  rfl

/-- For an id within the bound, `notify` always delivers the id to the
listeners and updates the last-notify timestamp, whatever the deadline
verdict. -/
theorem notify_in_bound_parts (now id : Nat) (n : NotifierState) (svc : EventService)
    (h : id ≤ svc.static.event_id_max_value) :
    (notify now id n svc).2.2 = deliverAll id svc
    ∧ (notify now id n svc).2.1 = { lastNotify := now } := by
  unfold notify
  rw [if_neg (Nat.not_lt.mpr h)]
  cases hd : svc.static.deadline with
  | none => exact ⟨rfl, rfl⟩
  | some d =>
      dsimp only
      split <;> exact ⟨rfl, rfl⟩

/-- C3: with the pending set holding exactly the distinct ids `e1` and `e2`
(emitted in that order by one notifier towards a fresh listener),
`try_wait_all` hands the callback each distinct pending id exactly once — the
invocation list is exactly the two ids lowest-first, of length two — and the
pass drains the set: an immediately following pass invokes nothing. -/
theorem try_wait_all_drains_each_id_once
    (e1 e2 now1 now2 : Nat) (n0 n1 n2 : NotifierState) (cfg : StaticConfigEvent)
    (svc1 svc2 : EventService)
    (hne : e1 ≠ e2) (hb1 : e1 ≤ cfg.event_id_max_value) (hb2 : e2 ≤ cfg.event_id_max_value)
    (h1 : (notify now1 e1 n0 (listenerPendingService cfg [])).2 = (n1, svc1))
    (h2 : (notify now2 e2 n1 svc1).2 = (n2, svc2)) :
    (tryWaitAll 0 svc2).1 = (if e1 < e2 then [e1, e2] else [e2, e1])
    ∧ (tryWaitAll 0 svc2).1.length = 2
    ∧ (tryWaitAll 0 (tryWaitAll 0 svc2).2).1 = [] := by
  have p1 := notify_in_bound_parts now1 e1 n0 (listenerPendingService cfg []) hb1
  have ha1 : (notify now1 e1 n0 (listenerPendingService cfg [])).2.2 = svc1 :=
    congrArg Prod.snd h1
  rw [p1.1] at ha1
  have hsvc1 : svc1 = listenerPendingService cfg [e1] := ha1.symm
  subst hsvc1
  have p2 := notify_in_bound_parts now2 e2 n1 (listenerPendingService cfg [e1]) hb2
  have ha2 : (notify now2 e2 n1 (listenerPendingService cfg [e1])).2.2 = svc2 :=
    congrArg Prod.snd h2
  rw [p2.1] at ha2
  have hsvc2 : svc2 = listenerPendingService cfg (insertId e2 [e1]) := ha2.symm
  subst hsvc2
  have hins : insertId e2 [e1] = if e1 < e2 then [e1, e2] else [e2, e1] := by
    by_cases h21 : e2 < e1
    · have h12 : ¬ e1 < e2 := by omega
      simp [insertId, h21, h12]
    · have hEq : ¬ e2 = e1 := fun h => hne h.symm
      have h12 : e1 < e2 := by omega
      simp [insertId, h21, hEq, h12]
  refine ⟨?_, ?_, ?_⟩
  · show insertId e2 [e1] = _
    exact hins
  · show (insertId e2 [e1]).length = 2
    rw [hins]
    split <;> rfl
  · rfl

/-- Witness for C3: ids 3 then 5 towards the fixture service; the draining
pass yields `[3, 5]` and a second pass yields nothing. -/
theorem try_wait_all_drains_each_id_once_witness :
    (tryWaitAll 0 svcP35).1 = [3, 5]
    ∧ (tryWaitAll 0 (tryWaitAll 0 svcP35).2).1 = [] := by
  have h := try_wait_all_drains_each_id_once 3 5 0 0 { lastNotify := 0 } { lastNotify := 0 }
    { lastNotify := 0 } cfgW svcP3 svcP35 (by decide) (by decide) (by decide) rfl rfl
  exact ⟨h.1.trans (by decide), h.2.2⟩

/-- C6: on a service with `notifier_created_event = c` and
`notifier_dropped_event = d` and one preexisting attached listener, creating a
notifier makes the listener observe exactly the single pending id `c` (its
first act), and dropping that notifier afterwards makes it observe exactly the
single pending id `d`. -/
theorem notifier_created_dropped_events (c d tNow : Nat) (cfg : StaticConfigEvent)
    (svc1 : EventService) (nst : NotifierState)
    (hc : cfg.notifier_created_event = some c)
    (hd : cfg.notifier_dropped_event = some d)
    (hcap : 0 < cfg.max_notifiers)
    (h1 : createNotifier tNow (preNotifierService cfg) = (svc1, .ok nst)) :
    (tryWaitAll 0 svc1).1 = [c]
    ∧ (tryWaitAll 0 (dropNotifier (tryWaitAll 0 svc1).2)).1 = [d] := by
  have hsvc1 : svc1 = listenerPendingService cfg [c] := by
    simp only [createNotifier, preNotifierService, hcap, if_true, hc, deliverAll, deliverTo,
      insertId, List.map_cons, List.map_nil, Prod.mk.injEq] at h1
    exact h1.1.symm
  subst hsvc1
  constructor
  · rfl
  · simp [tryWaitAll, listenerPendingService, dropNotifier, hd, deliverAll, deliverTo, insertId]

/-- Witness for C6, with the event ids of the create/drop test (21 and 31). -/
theorem notifier_created_dropped_events_witness :
    (tryWaitAll 0 svcCreated21).1 = [21]
    ∧ (tryWaitAll 0 (dropNotifier (tryWaitAll 0 svcCreated21).2)).1 = [31] :=
  notifier_created_dropped_events 21 31 0 cfg2131 svcCreated21 { lastNotify := 0 }
    rfl rfl (by decide) rfl

/-- C8: a service created with the single attribute pair `(k1, v1)` rejects an
open whose verifier also requires the absent key `k2` with
`IncompatibleAttributes` — reported as `OpenIncompatibleAttributes` through
`open_or_create` — while a verifier requiring only the present pair
succeeds. -/
theorem open_incompatible_attributes (k1 v1 k2 : String) (svc : EventService)
    (cfg : StaticConfigEvent) (attrs2 : List (String × String))
    (hne : k2 ≠ k1) (hattrs : svc.attrs = [(k1, v1)]) :
    openService 0 0 { requiredValues := [(k1, v1)], requiredKeys := [k2] } (some svc)
      = (some svc, .error .IncompatibleAttributes)
    ∧ (openOrCreateService cfg attrs2 0 0
        { requiredValues := [(k1, v1)], requiredKeys := [k2] } (some svc)).2
      = .error .OpenIncompatibleAttributes
    ∧ (openService 0 0 { requiredValues := [(k1, v1)], requiredKeys := [] } (some svc)).2
      = .ok () := by
  have hne1 : k1 ≠ k2 := fun h => hne h.symm
  have hver : verifyAttributes { requiredValues := [(k1, v1)], requiredKeys := [k2] }
      svc.attrs = false := by
    simp [verifyAttributes, hattrs, hne1]
  have h1 : openService 0 0 { requiredValues := [(k1, v1)], requiredKeys := [k2] } (some svc)
      = (some svc, .error .IncompatibleAttributes) := by
    simp [openService, hver, Nat.not_lt_zero]
  refine ⟨h1, ?_, ?_⟩
  · simp [openOrCreateService, h1, openErrorPrefixed]
  · simp [openService, verifyAttributes, hattrs, Nat.not_lt_zero]

/-- Witness for C8 at the concrete attribute set `{k1: v1}` and absent key
`k2`. -/
theorem open_incompatible_attributes_witness :
    (openService 0 0 { requiredValues := [("k1", "v1")], requiredKeys := ["k2"] }
        (some svcAttr)).2 = .error .IncompatibleAttributes
    ∧ (openService 0 0 { requiredValues := [("k1", "v1")], requiredKeys := [] }
        (some svcAttr)).2 = .ok () := by
  have h := open_incompatible_attributes "k1" "v1" "k2" svcAttr cfgW [] (by decide) rfl
  exact ⟨by rw [h.1], h.2.2⟩

/-- A `k`-byte little-endian encoding followed by a remainder decodes back to
the encoded value and leaves exactly the remainder. -/
theorem decodeLE_encodeLE_append :
    ∀ (k n : Nat) (r : List Nat), n < 256 ^ k →
      decodeLE ((encodeLE k n ++ r).take k) = n ∧ (encodeLE k n ++ r).drop k = r := by
  intro k
  induction k with
  | zero =>
      intro n r h
      constructor
      · simp only [encodeLE, List.nil_append, List.take_zero, decodeLE]
        omega
      · simp [encodeLE]
  | succ k ih =>
      intro n r h
      have hdiv : n / 256 < 256 ^ k := by
        rw [Nat.div_lt_iff_lt_mul (by norm_num : (0:Nat) < 256)]
        calc n < 256 ^ (k + 1) := h
          _ = 256 ^ k * 256 := by rw [pow_succ]
      obtain ⟨ih1, ih2⟩ := ih (n / 256) r hdiv
      constructor
      · have hstep : (encodeLE (k + 1) n ++ r).take (k + 1)
            = n % 256 :: (encodeLE k (n / 256) ++ r).take k := by
          simp [encodeLE]
        rw [hstep]
        simp only [decodeLE]
        rw [ih1]
        exact Nat.mod_add_div n 256
      · have hstep : (encodeLE (k + 1) n ++ r).drop (k + 1)
            = (encodeLE k (n / 256) ++ r).drop k := by
          simp [encodeLE]
        rw [hstep, ih2]

/-- Reading a u64 field off the front of an encoded stream returns the value
and the rest. -/
theorem readU64_append (n : Nat) (h : n < U64Bound) :
    ∀ r : List Nat, readU64 (encodeU64 n ++ r) = (n, r) := by
  intro r
  obtain ⟨h1, h2⟩ := decodeLE_encodeLE_append 8 n r (by simpa [U64Bound] using h)
  simp [readU64, encodeU64, h1, h2]

/-- Reading an optional u64 field off the front of an encoded stream returns
the optional value and the rest. -/
theorem readOptU64_append (o : Option Nat) (h : o.getD 0 < U64Bound) :
    ∀ r : List Nat, readOptU64 (encodeOptU64 o ++ r) = some (o, r) := by
  intro r
  cases o with
  | none =>
      have h2 := (decodeLE_encodeLE_append 8 0 r (by positivity)).2
      simp [encodeOptU64, readOptU64, encodeU64, h2]
  | some v =>
      obtain ⟨h1, h2⟩ := decodeLE_encodeLE_append 8 v r (by simpa [U64Bound] using h)
      simp [encodeOptU64, readOptU64, encodeU64, h1, h2]

/-- The static event descriptor round-trips through its binary encoding. -/
theorem decodeStaticConfigEvent_encode (c : StaticConfigEvent)
    (h : wfStaticConfigEvent c) :
    decodeStaticConfigEvent (encodeStaticConfigEvent c) = some c := by
  obtain ⟨h1, h2, h3, h4, h5, h6, h7, h8⟩ := h
  simp only [encodeStaticConfigEvent, decodeStaticConfigEvent,
    readU64_append _ h1, readU64_append _ h2, readU64_append _ h3, readU64_append _ h4,
    readOptU64_append _ h5, readOptU64_append _ h6, readOptU64_append _ h7]
  rw [← List.append_nil (encodeOptU64 c.notifier_dead_event), readOptU64_append _ h8]

/-- C9: the static event descriptor written at create is read back unchanged —
`static_config` of the created service is the written config, any open hands
out the same static descriptor, and the config survives the specified binary
serialization of the on-disk descriptor. -/
theorem static_config_round_trip (cfg : StaticConfigEvent)
    (attrs : List (String × String)) (hwf : wfStaticConfigEvent cfg) :
    (∀ svc : EventService, (createService cfg attrs none).1 = some svc → svc.static = cfg)
    ∧ (∀ svc svc1 : EventService,
        (openService 0 0 verEmpty (some svc)).1 = some svc1 → svc1.static = svc.static)
    ∧ decodeStaticConfigEvent (encodeStaticConfigEvent cfg) = some cfg := by
  refine ⟨?_, ?_, decodeStaticConfigEvent_encode cfg hwf⟩
  · intro svc h
    simp only [createService, Option.some.injEq] at h
    rw [← h]
  · intro svc svc1 h
    simp only [openService, verEmpty, verifyAttributes, List.all_nil, Bool.and_self,
      Nat.not_lt_zero, if_false, if_true, Option.some.injEq] at h
    rw [← h]

/-- Witness for C9 at the settings of the `service_settings_are_applied` test
(`max_notifiers = 5`, `max_listeners = 7`, lifecycle ids 12/13/14). -/
theorem static_config_round_trip_witness :
    decodeStaticConfigEvent (encodeStaticConfigEvent cfg5712) = some cfg5712 :=
  (static_config_round_trip cfg5712 [] (by unfold wfStaticConfigEvent; decide)).2.2
